import Mathlib

/-!
Verification of the message-box builder layer of the tedge_actors crate
(file crates/core/tedge_actors/src/builders.rs), as a shallow embedding.

Channels are modelled by their identifiers (a fresh channel id stands for
each call to mpsc::channel); a sender is a first-order value recording how
it delivers messages; builders are immutable records, and every mutating
Rust method becomes a function returning the updated record.
-/

/-- Modelled from the spec: the control-signal type (RuntimeRequest) is an
opaque value type defined by the surrounding runtime; only a channel slot
for it is needed here. -/
inductive RuntimeRequest : Type where
  | signal : RuntimeRequest
deriving DecidableEq, Repr

/-- Rust std::convert::Infallible: an error type with no possible values. -/
inductive Infallible : Type where
deriving DecidableEq

/-- Placeholder config when no specific config is required (builders.rs). -/
inductive NoConfig : Type where
  | mk : NoConfig
deriving DecidableEq, Repr

/-- The sending half of an mpsc channel, identified by the channel it
feeds. Cloning an mpsc sender yields a sender feeding the same channel, so
clones are equal values in this model. -/
structure MpscSender (M : Type u) : Type where
  chan : Nat
deriving DecidableEq, Repr

/-- A type-erased sender (Rust DynSender, i.e. Box of dyn Sender):
- null: the NullSender, which silently discards messages;
- mpscChan: a plain mpsc sender into the given channel;
- keyed: a KeyedSender tagging each message with a fixed ClientId before
  sending the pair into the given channel;
- logging: a LoggingSender decorating an inner sender with a diagnostic
  name. -/
inductive DynSender (M : Type u) : Type where
  | null : DynSender M
  | mpscChan (chan : Nat) : DynSender M
  | keyed (clientId : Nat) (chan : Nat) : DynSender M
  | logging (name : String) (inner : DynSender M) : DynSender M
deriving DecidableEq, Repr

/-- Rust Sender::sender_clone on an mpsc sender: a boxed clone feeding the
same channel. -/
def MpscSender.sender_clone (s : MpscSender M) : DynSender M :=
  DynSender.mpscChan s.chan

/-- One message landing in one channel; the payload type may differ from
the sender type when the sender tags the message. -/
structure Delivery : Type 1 where
  chan : Nat
  Ty : Type
  payload : Ty

/-- Error outcome of a send whose receiving end is gone. -/
inductive ChannelError : Type where
  | receiverGone : ChannelError
deriving DecidableEq, Repr

/-- Send semantics of a DynSender, given which channels have a closed
receiving end. The NullSender succeeds and delivers nothing; a channel
sender fails when its channel is closed; a KeyedSender tags the message
with its ClientId; a LoggingSender is transparent to delivery. -/
def DynSender.send {M : Type} (closed : Nat → Bool) :
    DynSender M → M → Except ChannelError (List Delivery)
  | DynSender.null, _ => Except.ok []
  | DynSender.mpscChan c, m =>
      if closed c then Except.error ChannelError.receiverGone
      else Except.ok [⟨c, M, m⟩]
  | DynSender.keyed i c, m =>
      if closed c then Except.error ChannelError.receiverGone
      else Except.ok [⟨c, Nat × M, (i, m)⟩]
  | DynSender.logging _ s, m => s.send closed m

/-- Modelled from the spec: the LoggingReceiver (out of scope decorator)
pairing the data channel with the control-signal channel under a
diagnostic name. -/
structure LoggingReceiver (M : Type u) : Type where
  name : String
  dataChan : Nat
  signalChan : Nat
deriving DecidableEq, Repr

/-- A built SimpleMessageBox: the input receiver paired with the
(logging-decorated) output sender, as assembled by the builders. -/
structure SimpleMessageBox (I : Type u) (O : Type v) : Type where
  receiver : LoggingReceiver I
  sender : DynSender O

/-- A builder of SimpleMessageBox (builders.rs lines 227-234). -/
structure SimpleMessageBoxBuilder (I : Type u) (O : Type v) : Type where
  name : String
  input_sender : MpscSender I
  signal_sender : MpscSender RuntimeRequest
  output_sender : DynSender O
  input_receiver : LoggingReceiver I

/-- SimpleMessageBoxBuilder::new (builders.rs lines 237-251). The two
mpsc::channel calls allocate fresh channels, passed here as explicit ids;
the capacity argument parametrizes the data channel and does not appear in
the builder state. The output route starts as the NullSender. -/
def SimpleMessageBoxBuilder.new (name : String) (_capacity : Nat)
    (inputChan signalChan : Nat) : SimpleMessageBoxBuilder I O :=
  { name := name
    input_sender := ⟨inputChan⟩
    signal_sender := ⟨signalChan⟩
    output_sender := DynSender.null
    input_receiver := ⟨name, inputChan, signalChan⟩ }

/-- ServiceProvider::connect_consumer for SimpleMessageBoxBuilder
(builders.rs lines 257-264): overwrite the output route with the given
response sender and return a clone of the input sender. The config
argument is ignored. -/
def SimpleMessageBoxBuilder.connect_consumer {C : Type w}
    (b : SimpleMessageBoxBuilder I O) (_config : C)
    (response_sender : DynSender O) :
    DynSender I × SimpleMessageBoxBuilder I O :=
  (b.input_sender.sender_clone, { b with output_sender := response_sender })

/-- ServiceConsumer::set_request_sender for SimpleMessageBoxBuilder
(builders.rs lines 274-276). -/
def SimpleMessageBoxBuilder.set_request_sender
    (b : SimpleMessageBoxBuilder I O) (request_sender : DynSender O) :
    SimpleMessageBoxBuilder I O :=
  { b with output_sender := request_sender }

/-- ServiceConsumer::get_response_sender for SimpleMessageBoxBuilder
(builders.rs lines 278-280). -/
def SimpleMessageBoxBuilder.get_response_sender
    (b : SimpleMessageBoxBuilder I O) : DynSender I :=
  b.input_sender.sender_clone

/-- ServiceConsumer::get_config for SimpleMessageBoxBuilder
(builders.rs lines 270-272). -/
def SimpleMessageBoxBuilder.get_config
    (_b : SimpleMessageBoxBuilder I O) : NoConfig :=
  NoConfig.mk

/-- MessageSource::register_peer for SimpleMessageBoxBuilder
(builders.rs lines 284-286): replace the output route. -/
def SimpleMessageBoxBuilder.register_peer {C : Type w}
    (b : SimpleMessageBoxBuilder I O) (_config : C) (sender : DynSender O) :
    SimpleMessageBoxBuilder I O :=
  { b with output_sender := sender }

/-- RuntimeRequestSink::get_signal_sender for SimpleMessageBoxBuilder
(builders.rs lines 300-302). -/
def SimpleMessageBoxBuilder.get_signal_sender
    (b : SimpleMessageBoxBuilder I O) : DynSender RuntimeRequest :=
  b.signal_sender.sender_clone

/-- Builder::build for SimpleMessageBoxBuilder (builders.rs lines 314-317):
wrap the output sender in a LoggingSender named after the box and pair it
with the input receiver. -/
def SimpleMessageBoxBuilder.build (b : SimpleMessageBoxBuilder I O) :
    SimpleMessageBox I O :=
  { receiver := b.input_receiver
    sender := DynSender.logging b.name b.output_sender }

/-- Builder::try_build for SimpleMessageBoxBuilder (builders.rs lines
310-312): Ok(self.build()), with Error = Infallible. -/
def SimpleMessageBoxBuilder.try_build (b : SimpleMessageBoxBuilder I O) :
    Except Infallible (SimpleMessageBox I O) :=
  Except.ok b.build

/-- A builder of server message boxes (builders.rs lines 321-328). The
clients field is the ordered registry mapping each ClientId to the
response sender registered at that connection. -/
structure ServerMessageBoxBuilder (Req : Type u) (Res : Type v) : Type where
  service_name : String
  max_concurrency : Nat
  request_sender : MpscSender (Nat × Req)
  input_receiver : LoggingReceiver (Nat × Req)
  signal_sender : MpscSender RuntimeRequest
  clients : List (DynSender Res)

/-- ServerMessageBoxBuilder::new (builders.rs lines 332-347): fresh
request and signal channels (ids passed explicitly), max_concurrency 1,
empty client registry. -/
def ServerMessageBoxBuilder.new (service_name : String) (_capacity : Nat)
    (requestChan signalChan : Nat) : ServerMessageBoxBuilder Req Res :=
  { service_name := service_name
    max_concurrency := 1
    request_sender := ⟨requestChan⟩
    input_receiver := ⟨service_name, requestChan, signalChan⟩
    signal_sender := ⟨signalChan⟩
    clients := [] }

/-- ServerMessageBoxBuilder::with_max_concurrency (builders.rs lines
349-354): store max(1, max_concurrency), keep every other field. -/
def ServerMessageBoxBuilder.with_max_concurrency
    (b : ServerMessageBoxBuilder Req Res) (max_concurrency : Nat) :
    ServerMessageBoxBuilder Req Res :=
  { b with max_concurrency := Nat.max 1 max_concurrency }

/-- ServerMessageBoxBuilder::connect_consumer (builders.rs lines 381-390):
the new ClientId is the current registry length; the response sender is
appended to the registry; the returned request sender is a KeyedSender
tagging requests with the new ClientId into the shared request channel.
The NoConfig argument is ignored. -/
def ServerMessageBoxBuilder.connect_consumer
    (b : ServerMessageBoxBuilder Req Res) (_config : NoConfig)
    (response_sender : DynSender Res) :
    DynSender Req × ServerMessageBoxBuilder Req Res :=
  let client_id := b.clients.length
  let request_sender := DynSender.keyed client_id b.request_sender.chan
  (request_sender, { b with clients := b.clients ++ [response_sender] })

/-- RuntimeRequestSink::get_signal_sender for ServerMessageBoxBuilder
(builders.rs lines 373-375). -/
def ServerMessageBoxBuilder.get_signal_sender
    (b : ServerMessageBoxBuilder Req Res) : DynSender RuntimeRequest :=
  b.signal_sender.sender_clone

/-- A built ServerMessageBox (the sequential form): the shared request
receiver paired with the fan-out over the client registry, under the
logging name of the service. In the source this is a SimpleMessageBox
whose sender is LoggingSender(name, SenderVec(clients)); the registry is
kept explicit here so that the routing of the fan-out sender can be
stated. -/
structure ServerMessageBox (Req : Type u) (Res : Type v) : Type where
  receiver : LoggingReceiver (Nat × Req)
  senderName : String
  fanout : List (DynSender Res)

/-- Modelled from the spec: SenderVec collapses the registry into one
fan-out sender that, given an outgoing (ClientId, Response), routes
exclusively to the registry entry at that ClientId — never to any other
entry, never broadcast. Its source file is outside the provided sources;
the routing below delivers the response to the entry at the ClientId when
it exists, and to no entry otherwise. -/
def senderVecRoute {M : Type u} (clients : List (DynSender M))
    (msg : Nat × M) : List (DynSender M × M) :=
  match clients.get? msg.1 with
  | some s => [(s, msg.2)]
  | none => []

/-- ServerMessageBoxBuilder::build_service (builders.rs lines 357-362):
collapse the registry into the fan-out sender, decorate it with the
service name, pair it with the shared request receiver. -/
def ServerMessageBoxBuilder.build_service
    (b : ServerMessageBoxBuilder Req Res) : ServerMessageBox Req Res :=
  { receiver := b.input_receiver
    senderName := b.service_name
    fanout := b.clients }

/-- A built ConcurrentServerMessageBox: the sequential box plus the
concurrency bound (ConcurrentServerMessageBox::new stores both). -/
structure ConcurrentServerMessageBox (Req : Type u) (Res : Type v) : Type where
  max_concurrency : Nat
  clients : ServerMessageBox Req Res

/-- ServerMessageBoxBuilder::build_concurrent (builders.rs lines 365-369). -/
def ServerMessageBoxBuilder.build_concurrent
    (b : ServerMessageBoxBuilder Req Res) :
    ConcurrentServerMessageBox Req Res :=
  { max_concurrency := b.max_concurrency
    clients := b.build_service }

/-- Builder::build for ServerMessageBox (builders.rs lines 402-404). -/
def ServerMessageBoxBuilder.build (b : ServerMessageBoxBuilder Req Res) :
    ServerMessageBox Req Res :=
  b.build_service

/-- Builder::try_build for ServerMessageBox (builders.rs lines 398-400). -/
def ServerMessageBoxBuilder.try_build (b : ServerMessageBoxBuilder Req Res) :
    Except Infallible (ServerMessageBox Req Res) :=
  Except.ok b.build

/-- Builder::build for ConcurrentServerMessageBox (builders.rs lines
416-418). -/
def ServerMessageBoxBuilder.buildConcurrentBox
    (b : ServerMessageBoxBuilder Req Res) :
    ConcurrentServerMessageBox Req Res :=
  b.build_concurrent

/-- Builder::try_build for ConcurrentServerMessageBox (builders.rs lines
412-414). -/
def ServerMessageBoxBuilder.tryBuildConcurrentBox
    (b : ServerMessageBoxBuilder Req Res) :
    Except Infallible (ConcurrentServerMessageBox Req Res) :=
  Except.ok b.buildConcurrentBox

/-- The ServiceProvider trait (builders.rs lines 163-186), as a record of
operations over a provider state P: connect_consumer takes a config and a
response sender and yields the request sender together with the updated
provider state. -/
structure ServiceProviderOps (P : Type w) (Req : Type u) (Res : Type v)
    (Config : Type x) : Type (max u v w x) where
  connect_consumer : P → Config → DynSender Res → DynSender Req × P

/-- The ServiceConsumer trait (builders.rs lines 189-198), as a record of
operations over a consumer state W. -/
structure ServiceConsumerOps (W : Type w) (Req : Type u) (Res : Type v)
    (Config : Type x) : Type (max u v w x) where
  get_config : W → Config
  set_request_sender : W → DynSender Req → W
  get_response_sender : W → DynSender Res

/-- The default body of ServiceProvider::add_peer (builders.rs lines
165-170): read the config of the peer, read its response sender, connect
the consumer to obtain a request sender, store that request sender into
the peer. -/
def ServiceProviderOps.add_peer
    (pv : ServiceProviderOps P Req Res Config)
    (cs : ServiceConsumerOps W Req Res Config) (p : P) (w : W) : P × W :=
  let config := cs.get_config w
  let response_sender := cs.get_response_sender w
  let (request_sender, p1) := pv.connect_consumer p config response_sender
  (p1, cs.set_request_sender w request_sender)

/-- The ServiceProvider instance of ServerMessageBoxBuilder
(builders.rs lines 378-391). -/
def serverProviderOps :
    ServiceProviderOps (ServerMessageBoxBuilder Req Res) Req Res NoConfig :=
  { connect_consumer := ServerMessageBoxBuilder.connect_consumer }

/-- The ServiceConsumer instance of SimpleMessageBoxBuilder
(builders.rs lines 267-281); the consumer box has the reversed type pair
(it receives responses and emits requests). -/
def simpleConsumerOps :
    ServiceConsumerOps (SimpleMessageBoxBuilder Res Req) Req Res NoConfig :=
  { get_config := SimpleMessageBoxBuilder.get_config
    set_request_sender := SimpleMessageBoxBuilder.set_request_sender
    get_response_sender := SimpleMessageBoxBuilder.get_response_sender }

/-- Configuration value object (builders.rs lines 507-511). -/
structure ServerConfig : Type where
  capacity : Nat
  max_concurrency : Nat
deriving DecidableEq, Repr

/-- Default for ServerConfig (builders.rs lines 513-520). -/
def ServerConfig.default : ServerConfig :=
  { capacity := 16, max_concurrency := 4 }

/-- ServerConfig::new (builders.rs lines 523-525). -/
def ServerConfig.new : ServerConfig :=
  ServerConfig.default

/-- ServerConfig::with_capacity (builders.rs lines 527-529): stores the
given capacity unchanged. -/
def ServerConfig.with_capacity (c : ServerConfig) (capacity : Nat) :
    ServerConfig :=
  { c with capacity := capacity }

/-- ServerConfig::with_max_concurrency (builders.rs lines 531-536): stores
the given value unchanged — no clamping here. -/
def ServerConfig.with_max_concurrency (c : ServerConfig)
    (max_concurrency : Nat) : ServerConfig :=
  { c with max_concurrency := max_concurrency }

/-- The concurrency-strategy marker Sequential (builders.rs line 422); the
source name clashes with an unrelated library name, hence the suffix. -/
inductive SequentialK : Type where
  | mk : SequentialK
deriving DecidableEq, Repr

/-- The concurrency-strategy marker Concurrent (builders.rs line 421). -/
inductive ConcurrentK : Type where
  | mk : ConcurrentK
deriving DecidableEq, Repr

/-- The part of the external Server trait the builder uses: the
identifying name of the business-logic component. -/
structure ServerOps (σ : Type w) : Type w where
  name : σ → String

/-- A Server actor builder (builders.rs lines 427-431), generic over the
server state type σ and the concurrency-strategy marker K. -/
structure ServerActorBuilder (σ : Type w) (Req : Type u) (Res : Type v)
    (K : Type x) : Type (max u v w x) where
  _kind : K
  server : σ
  box_builder : ServerMessageBoxBuilder Req Res

/-- ServerActorBuilder::new (builders.rs lines 434-444): a fresh box
builder named after the server, with the config capacity, then
with_max_concurrency applied to the config value. -/
def ServerActorBuilder.new (ops : ServerOps σ) (server : σ)
    (config : ServerConfig) (kind : K) (requestChan signalChan : Nat) :
    ServerActorBuilder σ Req Res K :=
  let service_name := ops.name server
  let box_builder :=
    (ServerMessageBoxBuilder.new service_name config.capacity
        requestChan signalChan).with_max_concurrency config.max_concurrency
  { _kind := kind, server := server, box_builder := box_builder }

/-- A built sequential ServerActor: ServerActor::new pairs the server with
its sequential message box. -/
structure ServerActor (σ : Type w) (Req : Type u) (Res : Type v) :
    Type (max u v w) where
  server : σ
  messages : ServerMessageBox Req Res

/-- A built ConcurrentServerActor: ConcurrentServerActor::new pairs the
server with its concurrent message box. -/
structure ConcurrentServerActor (σ : Type w) (Req : Type u) (Res : Type v) :
    Type (max u v w) where
  server : σ
  messages : ConcurrentServerMessageBox Req Res

/-- Builder::build for ServerActorBuilder with the Sequential strategy
(builders.rs lines 472-475). -/
def ServerActorBuilder.buildSequential
    (a : ServerActorBuilder σ Req Res SequentialK) : ServerActor σ Req Res :=
  { server := a.server, messages := a.box_builder.build }

/-- Builder::try_build for ServerActorBuilder with the Sequential strategy
(builders.rs lines 468-470). -/
def ServerActorBuilder.tryBuildSequential
    (a : ServerActorBuilder σ Req Res SequentialK) :
    Except Infallible (ServerActor σ Req Res) :=
  Except.ok a.buildSequential

/-- Builder::build for ServerActorBuilder with the Concurrent strategy
(builders.rs lines 485-488). -/
def ServerActorBuilder.buildConcurrent
    (a : ServerActorBuilder σ Req Res ConcurrentK) :
    ConcurrentServerActor σ Req Res :=
  { server := a.server, messages := a.box_builder.buildConcurrentBox }

/-- Builder::try_build for ServerActorBuilder with the Concurrent strategy
(builders.rs lines 481-483). -/
def ServerActorBuilder.tryBuildConcurrent
    (a : ServerActorBuilder σ Req Res ConcurrentK) :
    Except Infallible (ConcurrentServerActor σ Req Res) :=
  Except.ok a.buildConcurrent

/-- ServiceProvider::connect_consumer for ServerActorBuilder (builders.rs
lines 491-499): forwards to the internal box builder. -/
def ServerActorBuilder.connect_consumer
    (a : ServerActorBuilder σ Req Res K) (config : NoConfig)
    (response_sender : DynSender Res) :
    DynSender Req × ServerActorBuilder σ Req Res K :=
  let (request_sender, bb) :=
    a.box_builder.connect_consumer config response_sender
  (request_sender, { a with box_builder := bb })

/-- RuntimeRequestSink::get_signal_sender for ServerActorBuilder
(builders.rs lines 501-505): forwards to the internal box builder. -/
def ServerActorBuilder.get_signal_sender
    (a : ServerActorBuilder σ Req Res K) : DynSender RuntimeRequest :=
  a.box_builder.get_signal_sender

/-- Iterated connect_consumer on a server box builder: connect each
response sender of the list in order, returning the request senders in
call order together with the final builder. -/
def connectAll (b : ServerMessageBoxBuilder Req Res) :
    List (DynSender Res) →
    List (DynSender Req) × ServerMessageBoxBuilder Req Res
  | [] => ([], b)
  | r :: rs =>
    let step := b.connect_consumer NoConfig.mk r
    let rest := connectAll step.2 rs
    (step.1 :: rest.1, rest.2)

/-- connect_consumer on a server box builder, written out: the assigned
ClientId is the registry length at call time. -/
theorem ServerMessageBoxBuilder.connect_consumer_eq
    (b : ServerMessageBoxBuilder Req Res) (r : DynSender Res) :
    b.connect_consumer NoConfig.mk r =
      (DynSender.keyed b.clients.length b.request_sender.chan,
       { b with clients := b.clients ++ [r] }) :=
  rfl

/-- The final builder after connecting a list of consumers has the
response senders appended to the registry in order; every other field is
unchanged. -/
theorem connectAll_state (rs : List (DynSender Res)) :
    ∀ b : ServerMessageBoxBuilder Req Res,
      (connectAll b rs).2 = { b with clients := b.clients ++ rs } := by
  induction rs with
  | nil => intro b; simp [connectAll]
  | cons r rs ih =>
    intro b
    simp only [connectAll]
    rw [ih]
    simp [ServerMessageBoxBuilder.connect_consumer]

/-- The request senders returned by connecting a list of consumers are the
KeyedSenders into the shared request channel, keyed by consecutive
ClientIds starting at the registry length of the initial builder. -/
theorem connectAll_senders (rs : List (DynSender Res)) :
    ∀ b : ServerMessageBoxBuilder Req Res,
      (connectAll b rs).1 = (List.range rs.length).map
        (fun i => DynSender.keyed (b.clients.length + i)
          b.request_sender.chan) := by
  induction rs with
  | nil => intro b; simp [connectAll]
  | cons r rs ih =>
    intro b
    simp only [connectAll]
    rw [ih]
    simp only [ServerMessageBoxBuilder.connect_consumer]
    simp only [List.length_append, List.length_cons, List.length_nil]
    rw [List.range_succ_eq_map]
    simp only [List.map_cons, List.map_map]
    simp [Function.comp, Nat.add_comm, Nat.add_assoc, Nat.add_left_comm]

/-- Claim C1: for every sequence of n connect_consumer calls on one
server-box builder, the ClientIds keying the returned request senders are
exactly 0, 1, ..., n-1 in call order, and after the n calls the client
registry has length n. -/
theorem claim_C1_client_ids {Req Res : Type} (service_name : String)
    (capacity requestChan signalChan : Nat) (rs : List (DynSender Res)) :
    (connectAll (ServerMessageBoxBuilder.new service_name
        capacity requestChan signalChan : ServerMessageBoxBuilder Req Res)
        rs).1 =
      (List.range rs.length).map (fun i => DynSender.keyed i requestChan)
    ∧ (connectAll (ServerMessageBoxBuilder.new service_name
        capacity requestChan signalChan : ServerMessageBoxBuilder Req Res)
        rs).2.clients.length = rs.length := by
  constructor
  · rw [connectAll_senders]
    simp [ServerMessageBoxBuilder.new]
  · rw [connectAll_state]
    simp [ServerMessageBoxBuilder.new]

/-- Claim C2: with_max_concurrency n stores max(1, n) as the concurrency
bound, keeps every other field, and always returns the updated builder;
with_max_concurrency 0 yields the same builder as with_max_concurrency 1;
the stored bound is never zero. -/
theorem claim_C2_max_concurrency_clamp {Req Res : Type}
    (b : ServerMessageBoxBuilder Req Res) (n : Nat) :
    b.with_max_concurrency n = { b with max_concurrency := Nat.max 1 n }
    ∧ b.with_max_concurrency 0 = b.with_max_concurrency 1
    ∧ (b.with_max_concurrency n).max_concurrency ≠ 0 := by
  refine ⟨rfl, rfl, ?_⟩
  show Nat.max 1 n ≠ 0
  have h1 : 1 ≤ Nat.max 1 n := Nat.le_max_left 1 n
  omega

/-- Claim C3: on the sequential server box built from a registry of n
response senders, routing an outgoing pair (k, response) with k < n
delivers the response exactly to the sender registered at connection k:
one single delivery, to no other registry entry, never broadcast. -/
theorem claim_C3_fanout_routes_to_owner {Req Res : Type}
    (b : ServerMessageBoxBuilder Req Res) (k : Nat) (r : Res)
    (h : k < b.clients.length) :
    senderVecRoute b.build_service.fanout (k, r) =
      [(b.clients.get ⟨k, h⟩, r)] := by
  simp [senderVecRoute, ServerMessageBoxBuilder.build_service,
    List.getElem?_eq_getElem h]

/-- Witness for claim C3: a server box with two connected clients routes
the response pair (0, 3) exactly to the first registered sender. -/
theorem claim_C3_witness :
    senderVecRoute
      ((connectAll (ServerMessageBoxBuilder.new "s" 16 0 1 :
          ServerMessageBoxBuilder Nat Nat)
          [DynSender.mpscChan 7, DynSender.mpscChan 8]).2.build_service).fanout
      (0, 3) = [(DynSender.mpscChan 7, 3)] :=
  (claim_C3_fanout_routes_to_owner
      (connectAll (ServerMessageBoxBuilder.new "s" 16 0 1 :
          ServerMessageBoxBuilder Nat Nat)
          [DynSender.mpscChan 7, DynSender.mpscChan 8]).2
      0 3 (by decide)).trans (by decide)

/-- Claim C4: a SimpleMessageBoxBuilder holds at most one output route:
register_peer and connect_consumer both replace the stored output sender
with the new one, changing nothing else, and connect_consumer returns a
clone of the input sender. -/
theorem claim_C4_single_output_route {I O C : Type}
    (b : SimpleMessageBoxBuilder I O) (c : C) (s : DynSender O) :
    b.register_peer c s = { b with output_sender := s }
    ∧ b.connect_consumer c s =
        (b.input_sender.sender_clone, { b with output_sender := s }) :=
  ⟨rfl, rfl⟩

/-- Claim C5: a freshly created SimpleMessageBoxBuilder has the NullSender
as its output route, so sending any message on the output route of the
built box succeeds (an ok outcome, whatever channels are closed) and
delivers the message nowhere. -/
theorem claim_C5_null_output_discards {I O : Type} (name : String)
    (capacity inputChan signalChan : Nat) (closed : Nat → Bool) (m : O) :
    (SimpleMessageBoxBuilder.new name capacity inputChan signalChan :
        SimpleMessageBoxBuilder I O).output_sender = DynSender.null
    ∧ (SimpleMessageBoxBuilder.new name capacity inputChan signalChan :
        SimpleMessageBoxBuilder I O).build.sender.send closed m =
        Except.ok [] :=
  ⟨rfl, rfl⟩

/-- Claim C6: add_peer reads the config of the consumer, reads its
response sender, connects the consumer on the provider to obtain a
request sender, and stores that request sender into the consumer — and
nothing else: on the server-provider and simple-consumer instances the
resulting states are exactly the provider with the response sender
appended to its registry and the consumer with its output route set to
the keyed request sender. -/
theorem claim_C6_add_peer_steps {P W Config Req Res : Type}
    (pv : ServiceProviderOps P Req Res Config)
    (cs : ServiceConsumerOps W Req Res Config) (p : P) (w : W)
    (sb : ServerMessageBoxBuilder Req Res)
    (cb : SimpleMessageBoxBuilder Res Req) :
    pv.add_peer cs p w =
      ((pv.connect_consumer p (cs.get_config w)
          (cs.get_response_sender w)).2,
       cs.set_request_sender w
         (pv.connect_consumer p (cs.get_config w)
           (cs.get_response_sender w)).1)
    ∧ serverProviderOps.add_peer simpleConsumerOps sb cb =
        ({ sb with clients :=
            sb.clients ++ [DynSender.mpscChan cb.input_sender.chan] },
         { cb with output_sender :=
            DynSender.keyed sb.clients.length sb.request_sender.chan }) :=
  ⟨rfl, rfl⟩

/-- Claim C7: for every builder implementation of this module the error
type (Infallible) is uninhabited, try_build returns Ok of the built
product, and build returns exactly the product inside that Ok — build
never aborts for these builders. -/
theorem claim_C7_infallible_builders {I O Req Res σ : Type} :
    IsEmpty Infallible
    ∧ (∀ b : SimpleMessageBoxBuilder I O, b.try_build = Except.ok b.build)
    ∧ (∀ b : ServerMessageBoxBuilder Req Res,
        b.try_build = Except.ok b.build)
    ∧ (∀ b : ServerMessageBoxBuilder Req Res,
        b.tryBuildConcurrentBox = Except.ok b.buildConcurrentBox)
    ∧ (∀ a : ServerActorBuilder σ Req Res SequentialK,
        a.tryBuildSequential = Except.ok a.buildSequential)
    ∧ (∀ a : ServerActorBuilder σ Req Res ConcurrentK,
        a.tryBuildConcurrent = Except.ok a.buildConcurrent) :=
  by
  refine ⟨⟨fun e => nomatch e⟩, ?_, ?_, ?_, ?_, ?_⟩
  all_goals intro b
  all_goals rfl

/-- Claim C8: on a ServerActorBuilder of either strategy, connect_consumer
returns the very sender the internal box builder returns and updates only
that internal box builder, and get_signal_sender is the signal sender of
the internal box builder — wiring the actor builder is observationally the
wiring of the bare box builder. -/
theorem claim_C8_actor_builder_forwards {σ Req Res K : Type}
    (a : ServerActorBuilder σ Req Res K) (config : NoConfig)
    (rs : DynSender Res) :
    (a.connect_consumer config rs).1 =
      (a.box_builder.connect_consumer config rs).1
    ∧ (a.connect_consumer config rs).2 =
        { a with
            box_builder := (a.box_builder.connect_consumer config rs).2 }
    ∧ a.get_signal_sender = a.box_builder.get_signal_sender :=
  ⟨rfl, rfl, rfl⟩

/-- Claim C9: the default ServerConfig is capacity 16 and max_concurrency
4; the chainable setters store any given value unchanged (no clamping in
with_max_concurrency itself); the clamp to at least 1 happens at use, when
ServerActorBuilder.new feeds the config value into with_max_concurrency of
the box builder. -/
theorem claim_C9_server_config {σ K Req Res : Type} :
    ServerConfig.default.capacity = 16
    ∧ ServerConfig.default.max_concurrency = 4
    ∧ ServerConfig.new = ServerConfig.default
    ∧ (∀ (c : ServerConfig) (n : Nat),
        c.with_max_concurrency n = { c with max_concurrency := n })
    ∧ (∀ (c : ServerConfig) (n : Nat),
        c.with_capacity n = { c with capacity := n })
    ∧ (∀ (ops : ServerOps σ) (server : σ) (config : ServerConfig)
        (kind : K) (requestChan signalChan : Nat),
        (ServerActorBuilder.new ops server config kind requestChan
            signalChan :
          ServerActorBuilder σ Req Res K).box_builder.max_concurrency =
          Nat.max 1 config.max_concurrency) :=
  ⟨rfl, rfl, rfl, fun _ _ => rfl, fun _ _ => rfl, fun _ _ _ _ _ _ => rfl⟩

/-- Claim C10: connect_consumer ignores its config argument on both the
simple and the server box builder: two calls differing only in the config
value return the same request sender and leave identical builder states. -/
theorem claim_C10_config_ignored {I O C Req Res : Type}
    (c1 c2 : C) (b : SimpleMessageBoxBuilder I O) (rs : DynSender O)
    (n1 n2 : NoConfig) (sb : ServerMessageBoxBuilder Req Res)
    (rs2 : DynSender Res) :
    b.connect_consumer c1 rs = b.connect_consumer c2 rs
    ∧ sb.connect_consumer n1 rs2 = sb.connect_consumer n2 rs2 :=
  ⟨rfl, rfl⟩
